import Mathlib

/-!
Shallow embedding of the `LaunchpadLedger` device-session class
(`src/unnamed/part_000`, the compiled `launchpadledger.js` of
persistenceOne/ledger-amino) together with the small amount of external
collaborator behaviour its contracts pin down (HD-path parsing and
semantic-version comparison, both modelled from the specification of the
external packages).

Every device interaction is modelled as a request/response exchange against
an abstract device oracle; each session method becomes a function
`Device → List Request × Except String α` recording, in order, the requests
it sends, and either the JS return value or the message of the thrown
`Error`.  Errors in the source are plain `throw new Error(msg)`, so the
error type of the embedding is the message string.
-/

namespace LedgerAmino

/-! ## HD paths (Slip10 raw indices)

The index type comes from the external `@cosmjs/crypto` package.  Modelled
from the spec: a derivation-path segment is an unsigned 32-bit value,
"hardened" conventionally encoded by an offset of `2 ^ 31`; `hardened i`
stores `i + 2 ^ 31`, `normal i` stores `i`, `isHardened` tests whether the
stored value is at least `2 ^ 31`, and `toNumber` returns the stored value.
-/

structure Slip10RawIndex where
  value : Nat
deriving DecidableEq, Repr

def Slip10RawIndex.hardened (i : Nat) : Slip10RawIndex := ⟨i + 2 ^ 31⟩

def Slip10RawIndex.normal (i : Nat) : Slip10RawIndex := ⟨i⟩

def Slip10RawIndex.isHardened (n : Slip10RawIndex) : Bool := 2 ^ 31 ≤ n.value

def Slip10RawIndex.toNumber (n : Slip10RawIndex) : Nat := n.value

def HdPath : Type := List Slip10RawIndex

/-- Embeds `unharden` from the source: maps each segment to its raw numeric value,
subtracting `2 ^ 31` from hardened segments. -/
def unharden (hdPath : HdPath) : List Nat :=
  hdPath.map (fun n => if n.isHardened then n.toNumber - 2 ^ 31 else n.toNumber)

/-- Embeds `makeHdPath` from the source, which builds the string
`m/44 h/<coinType> h/<accountNumber> h/0/<addressIndex>` (the first three
segments hardened) and feeds it to the external parser `stringToPath`.
Modelled from the spec: the HD-path parser converts that canonical string
into the five-segment sequence with the three leading segments hardened.
The source takes the three parameters as decimal strings with defaults
"0", "0", "750"; the model takes them as the numbers those strings denote. -/
def makeHdPath (accountNumber addressIndex coinType : Nat) : HdPath :=
  [Slip10RawIndex.hardened 44, Slip10RawIndex.hardened coinType,
   Slip10RawIndex.hardened accountNumber, Slip10RawIndex.normal 0,
   Slip10RawIndex.normal addressIndex]

/-- The source constant `persistenceHdPath = makeHdPath()` with all defaults. -/
def persistenceHdPath : HdPath := makeHdPath 0 0 750

/-- The source constant `persistenceBech32Prefix` (renamed: the word the
source uses for the bech32 human-readable part cannot be a Lean name). -/
def persistenceBech32Hrp : String := "persistence"

/-- The source constant `requiredPersistenceAppVersion = "1.0.0"`. -/
def requiredPersistenceAppVersionString : String := "1.0.0"

/-- The version triple denoted by `requiredPersistenceAppVersionString`. -/
def requiredPersistenceAppVersion : Nat × Nat × Nat := (1, 0, 0)

/-! ## Semantic versions

The comparison is done by the external `semver` package on dotted triples of
numerals.  Modelled from the spec: standard major.minor.patch precedence,
i.e. lexicographic comparison of the three numeric components. -/

/-- Executable strict semantic-version precedence on version triples. -/
def semverLtBool (a b : Nat × Nat × Nat) : Bool :=
  decide (a.1 < b.1) ||
    (decide (a.1 = b.1) &&
      (decide (a.2.1 < b.2.1) || (decide (a.2.1 = b.2.1) && decide (a.2.2 < b.2.2))))

/-- Embeds `semver.gte` as used by the source. -/
def semverGte (a b : Nat × Nat × Nat) : Bool := !semverLtBool a b

/-- Specification-side statement of strict major.minor.patch precedence,
written independently of `semverLtBool` for comparison against it. -/
def SemverLtSpec (a b : Nat × Nat × Nat) : Prop :=
  a.1 < b.1 ∨ (a.1 = b.1 ∧ (a.2.1 < b.2.1 ∨ (a.2.1 = b.2.1 ∧ a.2.2 < b.2.2)))

instance (a b : Nat × Nat × Nat) : Decidable (SemverLtSpec a b) := by
  unfold SemverLtSpec; infer_instance

/-! ## Device responses and the device oracle -/

/-- Response of `app.getVersion()`. -/
structure VersionResponse where
  major : Nat
  minor : Nat
  patch : Nat
  test_mode : Bool
  error_message : Option String
  device_locked : Option Bool

/-- Response of `app.appInfo()`. -/
structure AppInfoResponse where
  appName : String
  error_message : Option String
  device_locked : Option Bool

/-- Response of `app.publicKey(path)`. -/
structure PublicKeyResponse where
  compressed_pk : List Nat
  error_message : Option String
  device_locked : Option Bool

/-- Response of `app.sign(path, message)`. -/
structure SignResponse where
  signature : List Nat
  error_message : Option String
  device_locked : Option Bool

/-- Response of `app.showAddressAndPubKey(path, hrp)`. -/
structure AddressResponse where
  address : String
  compressed_pk : List Nat
  error_message : Option String
  device_locked : Option Bool

/-- One request sent to the device, as observable at the vendor-client
boundary (`ledger-cosmos-js`). -/
inductive Request where
  | getVersion : Request
  | appInfo : Request
  | publicKey (path : List Nat) : Request
  | signBytes (path : List Nat) (message : String) : Request
  | showAddressAndPubKey (path : List Nat) (hrp : String) : Request
deriving DecidableEq, Repr

/-- Is this one of the data-producing requests (key / signature /
address-display), as opposed to the metadata requests of the gate? -/
def Request.isDataRequest : Request → Bool
  | Request.publicKey _ => true
  | Request.signBytes _ _ => true
  | Request.showAddressAndPubKey _ _ => true
  | _ => false

/-- Is this a public-key request? -/
def Request.isPublicKey : Request → Bool
  | Request.publicKey _ => true
  | _ => false

/-- The device oracle: what the device answers to each request.  One fixed
oracle per run; the session never inspects it other than through requests. -/
structure Device where
  versionResp : VersionResponse
  appInfoResp : AppInfoResponse
  publicKeyResp : List Nat → PublicKeyResponse
  signResp : List Nat → String → SignResponse
  showResp : List Nat → String → AddressResponse

/-! ## The session monad: request trace plus exception -/

/-- A session computation: from the device oracle, the ordered list of
requests sent and either a value or the thrown error message. -/
def LedgerM (α : Type) : Type := Device → List Request × Except String α

def LedgerM.pureM {α : Type} (a : α) : LedgerM α := fun _ => ([], Except.ok a)

def LedgerM.bindM {α β : Type} (x : LedgerM α) (f : α → LedgerM β) : LedgerM β :=
  fun d =>
    match x d with
    | (t, Except.error e) => (t, Except.error e)
    | (t, Except.ok a) => (t ++ (f a d).1, (f a d).2)

instance : Monad LedgerM where
  pure := LedgerM.pureM
  bind := LedgerM.bindM

/-- Embeds `throw new Error(msg)`. -/
def throwM {α : Type} (msg : String) : LedgerM α := fun _ => ([], Except.error msg)

/-- Lift a pure fallible step (no device interaction). -/
def liftE {α : Type} (r : Except String α) : LedgerM α := fun _ => ([], r)

def reqGetVersion : LedgerM VersionResponse :=
  fun d => ([Request.getVersion], Except.ok d.versionResp)

def reqAppInfo : LedgerM AppInfoResponse :=
  fun d => ([Request.appInfo], Except.ok d.appInfoResp)

def reqPublicKey (path : List Nat) : LedgerM PublicKeyResponse :=
  fun d => ([Request.publicKey path], Except.ok (d.publicKeyResp path))

def reqSign (path : List Nat) (message : String) : LedgerM SignResponse :=
  fun d => ([Request.signBytes path message], Except.ok (d.signResp path message))

def reqShow (path : List Nat) (hrp : String) : LedgerM AddressResponse :=
  fun d => ([Request.showAddressAndPubKey path hrp], Except.ok (d.showResp path hrp))

/-! ## Error translation -/

/-- Message of the `DeviceLocked` failure (the source throws it both for the
locked flag and for status code 26628). -/
def screensaverMsg : String := "Ledger’s screensaver mode is on"

/-- The default `rejectionMessage` parameter of `handleLedgerErrors`. -/
def defaultRejectionMessage : String := "Request was rejected by the user"

/-- Message of the `OutdatedApp` translation of "Instruction not supported". -/
def notUpToDateMsg : String :=
  "Your Persistence Ledger App is not up to date. Please update to version " ++
    requiredPersistenceAppVersionString ++ "."

/-- Embeds `handleLedgerErrors` from the source.  The JS destructuring defaults
(`error_message = "No errors"`, `device_locked = false`) are the `getD`
calls; the JS `switch` on the error string, whose cases are pairwise
distinct literals tried in order, is the equality chain. -/
def handleLedgerErrors (em : Option String) (dl : Option Bool)
    (rejectionMessage : String) : Except String Unit :=
  let errorMessage := em.getD "No errors"
  let deviceLocked := dl.getD false
  if deviceLocked then Except.error screensaverMsg
  else if errorMessage = "U2F: Timeout" then
    Except.error "Connection timed out. Please try again."
  else if errorMessage = "Persistence app does not seem to be open" then
    Except.error "Persistence app is not open"
  else if errorMessage = "Command not allowed" then
    Except.error "Transaction rejected"
  else if errorMessage = "Transaction rejected" then
    Except.error rejectionMessage
  else if errorMessage = "Unknown Status Code: 26628" then
    Except.error screensaverMsg
  else if errorMessage = "Instruction not supported" then
    Except.error notUpToDateMsg
  else if errorMessage = "No errors" then Except.ok ()
  else Except.error ("Ledger Native Error: " ++ errorMessage)

/-! ## The session class -/

/-- The constructor options record (`LaunchpadLedgerOptions`); each field may
be absent.  The source field holding the bech32 human-readable part is
renamed `hrp` here (its JS name cannot be a Lean identifier). -/
structure LaunchpadLedgerOptions where
  hdPaths : Option (List HdPath)
  hrp : Option String
  testModeAllowed : Option Bool

/-- The session state stored by the constructor (the `app` handle is the
device oracle, supplied at run time in this model). -/
structure LaunchpadLedger where
  testModeAllowed : Bool
  hdPaths : List HdPath
  hrp : String

/-- The constructor: stores each option, falling back to the defaults
`[persistenceHdPath]`, `persistenceBech32Hrp`, `false`.  It performs no
device interaction and rejects nothing. -/
def LaunchpadLedger.construct (options : LaunchpadLedgerOptions) : LaunchpadLedger :=
  { testModeAllowed := options.testModeAllowed.getD false
    hdPaths := options.hdPaths.getD [persistenceHdPath]
    hrp := options.hrp.getD persistenceBech32Hrp }

/-- Modelled from the spec: the vendor static bech32-from-public-key routine
(`getBech32FromPK`), a pure local computation with no device interaction.
No claim constrains the encoded text itself, so the model uses a concrete
injective placeholder function of exactly the same two arguments. -/
def getBech32FromPK (hrp : String) (pk : List Nat) : String :=
  hrp ++ "1" ++ String.intercalate "," (pk.map toString)

/-- Modelled from the spec: the external DER-to-fixed-length signature
conversion (`Secp256k1Signature.fromDer(...).toFixedLength()`).  No claim
constrains the converted bytes, so the model keeps them abstractly as a
function of the DER input. -/
def secp256k1FixedFromDer (der : List Nat) : List Nat := der

/-- Embeds `getOpenAppName`: queries `appInfo`, translates errors, returns the name. -/
def LaunchpadLedger.getOpenAppName (_l : LaunchpadLedger) : LedgerM String := do
  let response ← reqAppInfo
  liftE (handleLedgerErrors response.error_message response.device_locked
    defaultRejectionMessage)
  pure response.appName

/-- The JS `toLowerCase()` as it acts on the app names compared here:
ASCII lowercasing, one character at a time.  (Equal to the standard library
`String.toLower`, restated structurally over the character list.) -/
def jsToLowerCase (s : String) : String := String.mk (s.data.map Char.toLower)

/-- Embeds `verifyCosmosAppIsOpen`: case-insensitive comparison of the open app
name; "dashboard" means the home screen, anything other than "persistence"
is the wrong app. -/
def LaunchpadLedger.verifyCosmosAppIsOpen (l : LaunchpadLedger) : LedgerM Unit := do
  let appName ← l.getOpenAppName
  if jsToLowerCase appName = "dashboard" then
    throwM "Please open the Persistence Ledger app on your Ledger device."
  else if jsToLowerCase appName ≠ "persistence" then
    throwM ("Please close " ++ appName ++
      " and open the Persistence Ledger app on your Ledger device.")
  else pure ()

/-- The test-mode safety gate message. -/
def testModeMsg : String :=
  "DANGER: The Persistence Ledger app is in test mode and should not be used on mainnet!"

/-- Embeds `verifyAppMode`: rejects test-mode firmware unless allowed. -/
def LaunchpadLedger.verifyAppMode (l : LaunchpadLedger) (testMode : Bool) :
    LedgerM Unit :=
  if testMode && !l.testModeAllowed then throwM testModeMsg
  else pure ()

/-- Embeds `getCosmosAppVersion`: app-open check, version query, error translation,
test-mode check, then the version.  The source returns the dotted string
`major.minor.patch`; the model returns the triple the string denotes (its
only consumer re-parses it with `semver`). -/
def LaunchpadLedger.getCosmosAppVersion (l : LaunchpadLedger) :
    LedgerM (Nat × Nat × Nat) := do
  l.verifyCosmosAppIsOpen
  let response ← reqGetVersion
  liftE (handleLedgerErrors response.error_message response.device_locked
    defaultRejectionMessage)
  l.verifyAppMode response.test_mode
  pure (response.major, response.minor, response.patch)

/-- The `OutdatedApp` message of `verifyAppVersion`. -/
def outdatedMsg : String :=
  "Outdated version: Please update Persistence Ledger App to the latest version."

/-- Embeds `verifyAppVersion`: fails unless the reported version is `semver`-greater
or equal to the required minimum. -/
def LaunchpadLedger.verifyAppVersion (l : LaunchpadLedger) : LedgerM Unit := do
  let version ← l.getCosmosAppVersion
  if !semverGte version requiredPersistenceAppVersion then throwM outdatedMsg
  else pure ()

/-- Embeds `verifyDeviceIsReady`, the compatibility gate: version check then
app-open check. -/
def LaunchpadLedger.verifyDeviceIsReady (l : LaunchpadLedger) : LedgerM Unit := do
  l.verifyAppVersion
  l.verifyCosmosAppIsOpen

/-- Path-argument resolution shared by `getPubkey` and `sign`:
`hdPath || this.hdPaths[0]`.  With no argument and an empty configured list
the source dereferences `undefined` and the call rejects with a TypeError;
the model surfaces that as an error. -/
def LaunchpadLedger.resolveHdPath (l : LaunchpadLedger) (hdPath : Option HdPath) :
    LedgerM HdPath :=
  match hdPath with
  | some p => LedgerM.pureM p
  | none =>
    match l.hdPaths with
    | p :: _ => LedgerM.pureM p
    | [] => throwM "TypeError: cannot read hdPaths[0] of an empty path list"

/-- Embeds `getPubkey`: gate, path resolution, key request, error translation,
compressed key bytes. -/
def LaunchpadLedger.getPubkey (l : LaunchpadLedger) (hdPath : Option HdPath) :
    LedgerM (List Nat) := do
  l.verifyDeviceIsReady
  let hdPathToUse ← l.resolveHdPath hdPath
  let response ← reqPublicKey (unharden hdPathToUse)
  liftE (handleLedgerErrors response.error_message response.device_locked
    defaultRejectionMessage)
  pure response.compressed_pk

/-- Embeds `getPubkeys`: the source folds over `hdPaths` with promise chaining,
`reduce((promise, hdPath) => promise.then(async pubkeys =>
[...pubkeys, await getPubkey(hdPath)]), Promise.resolve([]))`. -/
def LaunchpadLedger.getPubkeysStep (l : LaunchpadLedger)
    (promise : LedgerM (List (List Nat))) (hdPath : HdPath) :
    LedgerM (List (List Nat)) := do
  let pubkeys ← promise
  let pk ← l.getPubkey (some hdPath)
  pure (pubkeys ++ [pk])

def LaunchpadLedger.getPubkeys (l : LaunchpadLedger) : LedgerM (List (List Nat)) :=
  l.hdPaths.foldl l.getPubkeysStep (LedgerM.pureM [])

/-- Embeds `getCosmosAddress`: uses the supplied key, or fetches one over the
default path; then the local bech32 encoding. -/
def LaunchpadLedger.getCosmosAddress (l : LaunchpadLedger)
    (pubkey : Option (List Nat)) : LedgerM String := do
  let pubkeyToUse ←
    match pubkey with
    | some pk => LedgerM.pureM pk
    | none => l.getPubkey none
  pure (getBech32FromPK l.hrp pubkeyToUse)

/-- The signing-specific rejection message supplied by `sign`. -/
def signRejectionMessage : String :=
  "Transaction signing request was rejected by the user"

/-- Embeds `sign`: gate, path resolution, sign request, error translation with the
signing-specific rejection message, signature conversion.  The source
decodes its byte message with the external `fromUtf8` before sending; the
model takes the decoded text directly. -/
def LaunchpadLedger.sign (l : LaunchpadLedger) (message : String)
    (hdPath : Option HdPath) : LedgerM (List Nat) := do
  l.verifyDeviceIsReady
  let hdPathToUse ← l.resolveHdPath hdPath
  let response ← reqSign (unharden hdPathToUse) message
  liftE (handleLedgerErrors response.error_message response.device_locked
    signRejectionMessage)
  pure (secp256k1FixedFromDer response.signature)

/-- Embeds `verifyAddress`: gate, address-display request with the fixed chain
identifier "persistence", error translation, raw response returned. -/
def LaunchpadLedger.verifyAddress (l : LaunchpadLedger) (hdPath : HdPath) :
    LedgerM AddressResponse := do
  l.verifyDeviceIsReady
  let response ← reqShow (unharden hdPath) "persistence"
  liftE (handleLedgerErrors response.error_message response.device_locked
    defaultRejectionMessage)
  pure response

/-- Pure denotation of the app-open check on a given appInfo response. -/
def appOpenResult (resp : AppInfoResponse) : Except String Unit :=
  match handleLedgerErrors resp.error_message resp.device_locked defaultRejectionMessage with
  | Except.error e => Except.error e
  | Except.ok _ =>
    if jsToLowerCase resp.appName = "dashboard" then
      Except.error "Please open the Persistence Ledger app on your Ledger device."
    else if jsToLowerCase resp.appName ≠ "persistence" then
      Except.error ("Please close " ++ resp.appName ++
        " and open the Persistence Ledger app on your Ledger device.")
    else Except.ok ()

/-- Pure denotation of `getCosmosAppVersion`. -/
def appVersionRun (l : LaunchpadLedger) (d : Device) :
    List Request × Except String (Nat × Nat × Nat) :=
  match appOpenResult d.appInfoResp with
  | Except.error e => ([Request.appInfo], Except.error e)
  | Except.ok _ =>
    ([Request.appInfo, Request.getVersion],
     match handleLedgerErrors d.versionResp.error_message d.versionResp.device_locked
         defaultRejectionMessage with
     | Except.error e => Except.error e
     | Except.ok _ =>
       if d.versionResp.test_mode && !l.testModeAllowed then Except.error testModeMsg
       else Except.ok (d.versionResp.major, d.versionResp.minor, d.versionResp.patch))

/-- Pure denotation of `verifyAppVersion`. -/
def appVersionGateRun (l : LaunchpadLedger) (d : Device) :
    List Request × Except String Unit :=
  ((appVersionRun l d).1,
   match (appVersionRun l d).2 with
   | Except.error e => Except.error e
   | Except.ok v =>
     if !semverGte v requiredPersistenceAppVersion then Except.error outdatedMsg
     else Except.ok ())

/-- Pure denotation of the compatibility gate `verifyDeviceIsReady`. -/
def gateRun (l : LaunchpadLedger) (d : Device) : List Request × Except String Unit :=
  match (appVersionGateRun l d).2 with
  | Except.error e => ((appVersionGateRun l d).1, Except.error e)
  | Except.ok _ =>
    ((appVersionGateRun l d).1 ++ [Request.appInfo], appOpenResult d.appInfoResp)

/-- Pure denotation of the key request and its error translation, after the
gate has passed. -/
def pubkeyStep (d : Device) (path : List Nat) : Except String (List Nat) :=
  match handleLedgerErrors (d.publicKeyResp path).error_message
      (d.publicKeyResp path).device_locked defaultRejectionMessage with
  | Except.error e => Except.error e
  | Except.ok _ => Except.ok (d.publicKeyResp path).compressed_pk

/-- Pure denotation of the sign request and its error translation, after the
gate has passed. -/
def signStep (d : Device) (path : List Nat) (message : String) :
    Except String (List Nat) :=
  match handleLedgerErrors (d.signResp path message).error_message
      (d.signResp path message).device_locked signRejectionMessage with
  | Except.error e => Except.error e
  | Except.ok _ => Except.ok (secp256k1FixedFromDer (d.signResp path message).signature)

/-- Pure denotation of the address-display request and its error
translation, after the gate has passed. -/
def showStep (d : Device) (path : List Nat) : Except String AddressResponse :=
  match handleLedgerErrors (d.showResp path "persistence").error_message
      (d.showResp path "persistence").device_locked defaultRejectionMessage with
  | Except.error e => Except.error e
  | Except.ok _ => Except.ok (d.showResp path "persistence")

/-- The session built with the default options. -/
def defaultLedger : LaunchpadLedger := LaunchpadLedger.construct ⟨none, none, none⟩

/-- A device oracle that answers every request without error: app name and
version triple as given, test mode off, every payload fixed. -/
def mkOkDevice (v : Nat × Nat × Nat) (name : String) : Device :=
  { versionResp := ⟨v.1, v.2.1, v.2.2, false, none, none⟩
    appInfoResp := ⟨name, none, none⟩
    publicKeyResp := fun _ => ⟨[2, 7, 1], none, none⟩
    signResp := fun _ _ => ⟨[48, 68], none, none⟩
    showResp := fun _ _ => ⟨"addr", [2, 7, 1], none, none⟩ }

/-- A device whose version response carries the given test-mode flag and is
otherwise error-free. -/
def mkTestModeDevice (tm : Bool) : Device :=
  { versionResp := ⟨1, 0, 0, tm, none, none⟩
    appInfoResp := ⟨"Persistence", none, none⟩
    publicKeyResp := fun _ => ⟨[2, 7, 1], none, none⟩
    signResp := fun _ _ => ⟨[48, 68], none, none⟩
    showResp := fun _ _ => ⟨"addr", [2, 7, 1], none, none⟩ }

/-- A device that rejects every signing request with the generic rejection
error text. -/
def mkRejectingDevice : Device :=
  { versionResp := ⟨1, 0, 0, false, none, none⟩
    appInfoResp := ⟨"Persistence", none, none⟩
    publicKeyResp := fun _ => ⟨[2, 7, 1], none, none⟩
    signResp := fun _ _ => ⟨[], some "Transaction rejected", none⟩
    showResp := fun _ _ => ⟨"addr", [2, 7, 1], none, none⟩ }

/-- Structural denotation of the sequential key-request loop over a path
list. -/
def pubkeysRun (l : LaunchpadLedger) (d : Device) :
    List HdPath → List Request × Except String (List (List Nat))
  | [] => ([], Except.ok [])
  | p :: ps =>
    match l.getPubkey (some p) d with
    | (t, Except.error e) => (t, Except.error e)
    | (t, Except.ok pk) =>
      match pubkeysRun l d ps with
      | (t2, Except.error e) => (t ++ t2, Except.error e)
      | (t2, Except.ok pks) => (t ++ t2, Except.ok (pk :: pks))

/-- A session configured with three distinct derivation paths. -/
def threePathLedger : LaunchpadLedger :=
  LaunchpadLedger.construct
    ⟨some [makeHdPath 0 0 750, makeHdPath 1 0 750, makeHdPath 2 0 750], none, none⟩

/-- A device that fails the key request for account 1 with a timeout and
answers account `n` with the one-byte key `[n]` otherwise. -/
def mkFailSecondDevice : Device :=
  { versionResp := ⟨1, 0, 0, false, none, none⟩
    appInfoResp := ⟨"Persistence", none, none⟩
    publicKeyResp := fun path =>
      if path = [44, 750, 1, 0, 0] then ⟨[], some "U2F: Timeout", none⟩
      else ⟨[path.getD 2 0], none, none⟩
    signResp := fun _ _ => ⟨[48, 68], none, none⟩
    showResp := fun _ _ => ⟨"addr", [2, 7, 1], none, none⟩ }

theorem run_bind {α β : Type} (x : LedgerM α) (f : α → LedgerM β) (d : Device) :
    (x >>= f) d = match x d with
      | (t, Except.error e) => (t, Except.error e)
      | (t, Except.ok a) => (t ++ (f a d).1, (f a d).2) := rfl

theorem run_pure {α : Type} (a : α) (d : Device) :
    (pure a : LedgerM α) d = ([], Except.ok a) := rfl

theorem vCAIO_run (l : LaunchpadLedger) (d : Device) :
    l.verifyCosmosAppIsOpen d = ([Request.appInfo], appOpenResult d.appInfoResp) := by
  unfold LaunchpadLedger.verifyCosmosAppIsOpen LaunchpadLedger.getOpenAppName appOpenResult
  cases h : handleLedgerErrors d.appInfoResp.error_message d.appInfoResp.device_locked
      defaultRejectionMessage with
  | error e =>
    simp [run_bind, reqAppInfo, liftE, h, throwM]
  | ok u =>
    cases u
    simp [run_bind, reqAppInfo, liftE, h, throwM, run_pure]
    split_ifs <;> simp [throwM, run_pure]

theorem gCAV_run (l : LaunchpadLedger) (d : Device) :
    l.getCosmosAppVersion d = appVersionRun l d := by
  unfold LaunchpadLedger.getCosmosAppVersion appVersionRun
  simp only [run_bind, vCAIO_run]
  cases h : appOpenResult d.appInfoResp with
  | error e => simp
  | ok u =>
    cases u
    cases h2 : handleLedgerErrors d.versionResp.error_message d.versionResp.device_locked
        defaultRejectionMessage with
    | error e => simp [reqGetVersion, liftE, h2]
    | ok u2 =>
      cases u2
      unfold LaunchpadLedger.verifyAppMode
      split_ifs with h3 <;> simp [reqGetVersion, liftE, h2, throwM, run_pure, h3]

theorem vAV_run (l : LaunchpadLedger) (d : Device) :
    l.verifyAppVersion d = appVersionGateRun l d := by
  unfold LaunchpadLedger.verifyAppVersion appVersionGateRun
  simp only [run_bind, gCAV_run]
  cases h : (appVersionRun l d) with
  | mk t r =>
    cases r with
    | error e => simp
    | ok v =>
      dsimp only
      split_ifs with h2 <;> simp [throwM, run_pure, h2]

theorem gate_run (l : LaunchpadLedger) (d : Device) :
    l.verifyDeviceIsReady d = gateRun l d := by
  unfold LaunchpadLedger.verifyDeviceIsReady gateRun
  simp only [run_bind, vAV_run, vCAIO_run]
  cases h : (appVersionGateRun l d) with
  | mk t r =>
    cases r with
    | error e => simp
    | ok u => cases u; simp

/-- The gate sends one of three request sequences, depending on where it
stops. -/
theorem gate_trace_cases (l : LaunchpadLedger) (d : Device) :
    (l.verifyDeviceIsReady d).1 = [Request.appInfo] ∨
    (l.verifyDeviceIsReady d).1 = [Request.appInfo, Request.getVersion] ∨
    (l.verifyDeviceIsReady d).1 =
      [Request.appInfo, Request.getVersion, Request.appInfo] := by
  rw [gate_run]
  unfold gateRun appVersionGateRun appVersionRun
  cases h : appOpenResult d.appInfoResp with
  | error e => simp
  | ok u =>
    cases u
    cases h2 : handleLedgerErrors d.versionResp.error_message d.versionResp.device_locked
        defaultRejectionMessage with
    | error e => simp
    | ok u2 =>
      cases u2
      dsimp only
      cases h3 : d.versionResp.test_mode && !l.testModeAllowed <;>
        cases h4 : semverGte (d.versionResp.major, d.versionResp.minor, d.versionResp.patch)
            requiredPersistenceAppVersion <;>
          simp [h3, h4]

/-- Every request the gate sends is a metadata request, never a
data-producing one. -/
theorem gate_trace_no_data (l : LaunchpadLedger) (d : Device) :
    ∀ r ∈ (l.verifyDeviceIsReady d).1, r.isDataRequest = false := by
  intro r hr
  rcases gate_trace_cases l d with h | h | h <;> rw [h] at hr <;> simp at hr <;>
    rcases hr with rfl | rfl | rfl <;> rfl

theorem getPubkey_some_run (l : LaunchpadLedger) (d : Device) (p : HdPath) :
    l.getPubkey (some p) d =
      match l.verifyDeviceIsReady d with
      | (t, Except.error e) => (t, Except.error e)
      | (t, Except.ok _) =>
        (t ++ [Request.publicKey (unharden p)], pubkeyStep d (unharden p)) := by
  unfold LaunchpadLedger.getPubkey pubkeyStep
  simp only [run_bind]
  cases hg : l.verifyDeviceIsReady d with
  | mk t r =>
    cases r with
    | error e => simp
    | ok u =>
      cases u
      dsimp only [LaunchpadLedger.resolveHdPath, LedgerM.pureM]
      cases h : handleLedgerErrors (d.publicKeyResp (unharden p)).error_message
          (d.publicKeyResp (unharden p)).device_locked defaultRejectionMessage with
      | error e => simp [reqPublicKey, liftE, h]
      | ok u2 => cases u2; simp [reqPublicKey, liftE, h, run_pure]

theorem getPubkey_none_run (l : LaunchpadLedger) (d : Device) (p : HdPath)
    (rest : List HdPath) (hp : l.hdPaths = p :: rest) :
    l.getPubkey none d = l.getPubkey (some p) d := by
  unfold LaunchpadLedger.getPubkey
  simp only [run_bind]
  cases hg : l.verifyDeviceIsReady d with
  | mk t r =>
    cases r with
    | error e => simp
    | ok u =>
      cases u
      dsimp only [LaunchpadLedger.resolveHdPath]
      rw [hp]

theorem sign_some_run (l : LaunchpadLedger) (d : Device) (message : String)
    (p : HdPath) :
    l.sign message (some p) d =
      match l.verifyDeviceIsReady d with
      | (t, Except.error e) => (t, Except.error e)
      | (t, Except.ok _) =>
        (t ++ [Request.signBytes (unharden p) message],
         signStep d (unharden p) message) := by
  unfold LaunchpadLedger.sign signStep
  simp only [run_bind]
  cases hg : l.verifyDeviceIsReady d with
  | mk t r =>
    cases r with
    | error e => simp
    | ok u =>
      cases u
      dsimp only [LaunchpadLedger.resolveHdPath, LedgerM.pureM]
      cases h : handleLedgerErrors (d.signResp (unharden p) message).error_message
          (d.signResp (unharden p) message).device_locked signRejectionMessage with
      | error e => simp [reqSign, liftE, h]
      | ok u2 => cases u2; simp [reqSign, liftE, h, run_pure]

theorem verifyAddress_run (l : LaunchpadLedger) (d : Device) (p : HdPath) :
    l.verifyAddress p d =
      match l.verifyDeviceIsReady d with
      | (t, Except.error e) => (t, Except.error e)
      | (t, Except.ok _) =>
        (t ++ [Request.showAddressAndPubKey (unharden p) "persistence"],
         showStep d (unharden p)) := by
  unfold LaunchpadLedger.verifyAddress showStep
  simp only [run_bind]
  cases hg : l.verifyDeviceIsReady d with
  | mk t r =>
    cases r with
    | error e => simp
    | ok u =>
      cases u
      cases h : handleLedgerErrors (d.showResp (unharden p) "persistence").error_message
          (d.showResp (unharden p) "persistence").device_locked defaultRejectionMessage with
      | error e => simp [reqShow, liftE, h]
      | ok u2 => cases u2; simp [reqShow, liftE, h, run_pure]

/-- C1: `handleLedgerErrors` implements the error table as a raises-iff
contract: it succeeds iff the device-locked flag (default false) is false
and the error text (default "No errors") is "No errors" or absent; a set
locked flag wins over any error text; each listed error string maps to its
listed failure; any other text fails with a message carrying the raw text. -/
theorem handleLedgerErrors_table_contract (em : Option String) (dl : Option Bool)
    (rej : String) :
    (handleLedgerErrors em dl rej = Except.ok () ↔
      (dl.getD false = false ∧ (em = none ∨ em = some "No errors"))) ∧
    (dl.getD false = true →
      handleLedgerErrors em dl rej = Except.error screensaverMsg) ∧
    (dl.getD false = false →
      (em = some "U2F: Timeout" →
        handleLedgerErrors em dl rej =
          Except.error "Connection timed out. Please try again.") ∧
      (em = some "Persistence app does not seem to be open" →
        handleLedgerErrors em dl rej = Except.error "Persistence app is not open") ∧
      (em = some "Command not allowed" →
        handleLedgerErrors em dl rej = Except.error "Transaction rejected") ∧
      (em = some "Transaction rejected" →
        handleLedgerErrors em dl rej = Except.error rej) ∧
      (em = some "Unknown Status Code: 26628" →
        handleLedgerErrors em dl rej = Except.error screensaverMsg) ∧
      (em = some "Instruction not supported" →
        handleLedgerErrors em dl rej = Except.error notUpToDateMsg) ∧
      (∀ s, em = some s →
        s ∉ ["U2F: Timeout", "Persistence app does not seem to be open",
             "Command not allowed", "Transaction rejected",
             "Unknown Status Code: 26628", "Instruction not supported",
             "No errors"] →
        handleLedgerErrors em dl rej =
          Except.error ("Ledger Native Error: " ++ s))) := by
  cases hdl : dl.getD false with
  | true =>
    refine ⟨?_, fun _ => ?_, fun h => absurd h (by decide)⟩
    · simp [handleLedgerErrors, hdl]
    · simp [handleLedgerErrors, hdl]
  | false =>
    refine ⟨?_, fun h => absurd h (by decide), fun _ => ?_⟩
    · cases em with
      | none => simp [handleLedgerErrors, hdl]
      | some s =>
        simp only [handleLedgerErrors, hdl, Option.getD_some]
        split_ifs <;> simp_all
    · cases em with
      | none => simp
      | some s =>
        refine ⟨fun h => ?_, fun h => ?_, fun h => ?_, fun h => ?_, fun h => ?_,
          fun h => ?_, fun t ht hmem => ?_⟩
        · injection h with h; subst h; simp [handleLedgerErrors, hdl]
        · injection h with h; subst h; simp [handleLedgerErrors, hdl]
        · injection h with h; subst h; simp [handleLedgerErrors, hdl]
        · injection h with h; subst h; simp [handleLedgerErrors, hdl]
        · injection h with h; subst h; simp [handleLedgerErrors, hdl]
        · injection h with h; subst h; simp [handleLedgerErrors, hdl]
        · injection ht with ht; subst ht
          simp only [List.mem_cons, List.not_mem_nil, or_false] at hmem
          push_neg at hmem
          obtain ⟨h1, h2, h3, h4, h5, h6, h7⟩ := hmem
          simp [handleLedgerErrors, hdl, h1, h2, h3, h4, h5, h6, h7]

theorem semverLtBool_iff (a b : Nat × Nat × Nat) :
    semverLtBool a b = true ↔ SemverLtSpec a b := by
  unfold semverLtBool SemverLtSpec
  simp [Bool.or_eq_true, Bool.and_eq_true, decide_eq_true_eq]

/-- C3: assuming the version query itself succeeds and reports the triple
`(a, b, c)`, `verifyAppVersion` fails with the `OutdatedApp` message exactly
when `(a, b, c)` is strictly below the required minimum `1.0.0` under
standard major.minor.patch precedence, and succeeds otherwise. -/
theorem verifyAppVersion_semver_gate (l : LaunchpadLedger) (d : Device)
    (t : List Request) (a b c : Nat)
    (h : l.getCosmosAppVersion d = (t, Except.ok (a, b, c))) :
    (SemverLtSpec (a, b, c) requiredPersistenceAppVersion →
      l.verifyAppVersion d = (t, Except.error outdatedMsg)) ∧
    (¬ SemverLtSpec (a, b, c) requiredPersistenceAppVersion →
      l.verifyAppVersion d = (t, Except.ok ())) := by
  unfold LaunchpadLedger.verifyAppVersion
  simp only [run_bind, h]
  constructor
  · intro hs
    have hb : semverGte (a, b, c) requiredPersistenceAppVersion = false := by
      unfold semverGte
      simp [(semverLtBool_iff _ _).2 hs]
    simp [hb, throwM]
  · intro hs
    have hb : semverGte (a, b, c) requiredPersistenceAppVersion = true := by
      unfold semverGte
      simp [(semverLtBool_iff _ _).not.2 hs]
    simp [hb, run_pure]

theorem verifyAppVersion_semver_gate_witness :
    defaultLedger.verifyAppVersion (mkOkDevice (0, 9, 9) "Persistence") =
        ([Request.appInfo, Request.getVersion], Except.error outdatedMsg) ∧
    defaultLedger.verifyAppVersion (mkOkDevice (1, 0, 0) "Persistence") =
        ([Request.appInfo, Request.getVersion], Except.ok ()) ∧
    defaultLedger.verifyAppVersion (mkOkDevice (1, 2, 0) "Persistence") =
        ([Request.appInfo, Request.getVersion], Except.ok ()) :=
  ⟨(verifyAppVersion_semver_gate defaultLedger (mkOkDevice (0, 9, 9) "Persistence")
      [Request.appInfo, Request.getVersion] 0 9 9 (by rfl)).1 (by decide),
   (verifyAppVersion_semver_gate defaultLedger (mkOkDevice (1, 0, 0) "Persistence")
      [Request.appInfo, Request.getVersion] 1 0 0 (by rfl)).2 (by decide),
   (verifyAppVersion_semver_gate defaultLedger (mkOkDevice (1, 2, 0) "Persistence")
      [Request.appInfo, Request.getVersion] 1 2 0 (by rfl)).2 (by decide)⟩

/-- C5: under a passed app-open check, the test-mode rejection fires exactly
when the reported test-mode flag is set and `testModeAllowed` is false; it
never fires when the flag is unset or test mode is allowed; and it is
checked only after error translation of the version response, which wins. -/
theorem getCosmosAppVersion_test_mode_gate (l : LaunchpadLedger) (d : Device)
    (t : List Request) (hOpen : l.verifyCosmosAppIsOpen d = (t, Except.ok ())) :
    (∀ e, handleLedgerErrors d.versionResp.error_message d.versionResp.device_locked
        defaultRejectionMessage = Except.error e →
      l.getCosmosAppVersion d = (t ++ [Request.getVersion], Except.error e)) ∧
    (handleLedgerErrors d.versionResp.error_message d.versionResp.device_locked
        defaultRejectionMessage = Except.ok () →
      (d.versionResp.test_mode = true → l.testModeAllowed = false →
        l.getCosmosAppVersion d =
          (t ++ [Request.getVersion], Except.error testModeMsg)) ∧
      (l.testModeAllowed = true ∨ d.versionResp.test_mode = false →
        l.getCosmosAppVersion d =
          (t ++ [Request.getVersion],
           Except.ok (d.versionResp.major, d.versionResp.minor,
             d.versionResp.patch)))) := by
  unfold LaunchpadLedger.getCosmosAppVersion
  simp only [run_bind, hOpen]
  constructor
  · intro e he
    simp [reqGetVersion, liftE, he]
  · intro hok
    constructor
    · intro htm hallow
      simp [reqGetVersion, liftE, hok, LaunchpadLedger.verifyAppMode, htm, hallow,
        throwM]
    · intro hcase
      have hcond : (d.versionResp.test_mode && !l.testModeAllowed) = false := by
        rcases hcase with h1 | h1 <;> simp [h1]
      simp [reqGetVersion, liftE, hok, LaunchpadLedger.verifyAppMode, hcond,
        run_pure]

theorem getCosmosAppVersion_test_mode_gate_witness :
    defaultLedger.getCosmosAppVersion (mkTestModeDevice true) =
        ([Request.appInfo, Request.getVersion], Except.error testModeMsg) ∧
    defaultLedger.getCosmosAppVersion (mkTestModeDevice false) =
        ([Request.appInfo, Request.getVersion], Except.ok (1, 0, 0)) :=
  ⟨((getCosmosAppVersion_test_mode_gate defaultLedger (mkTestModeDevice true)
      [Request.appInfo] (by rfl)).2 (by rfl)).1 rfl rfl,
   ((getCosmosAppVersion_test_mode_gate defaultLedger (mkTestModeDevice false)
      [Request.appInfo] (by rfl)).2 (by rfl)).2 (Or.inr rfl)⟩

/-- C6: assuming the appInfo response itself translates without error,
`verifyCosmosAppIsOpen` compares the open-app name case-insensitively:
any casing of "Dashboard" fails with the home-screen message; any name
that is (case-insensitively) neither "Dashboard" nor the expected app
fails with a message naming that app; any casing of the expected app name
succeeds. -/
theorem verifyCosmosAppIsOpen_cases (l : LaunchpadLedger) (d : Device)
    (hOk : handleLedgerErrors d.appInfoResp.error_message d.appInfoResp.device_locked
      defaultRejectionMessage = Except.ok ()) :
    (jsToLowerCase d.appInfoResp.appName = "dashboard" →
      l.verifyCosmosAppIsOpen d = ([Request.appInfo],
        Except.error "Please open the Persistence Ledger app on your Ledger device.")) ∧
    (jsToLowerCase d.appInfoResp.appName ≠ "dashboard" →
      jsToLowerCase d.appInfoResp.appName ≠ "persistence" →
      l.verifyCosmosAppIsOpen d = ([Request.appInfo],
        Except.error ("Please close " ++ d.appInfoResp.appName ++
          " and open the Persistence Ledger app on your Ledger device."))) ∧
    (jsToLowerCase d.appInfoResp.appName = "persistence" →
      l.verifyCosmosAppIsOpen d = ([Request.appInfo], Except.ok ())) := by
  rw [vCAIO_run]
  unfold appOpenResult
  rw [hOk]
  refine ⟨fun h1 => ?_, fun h1 h2 => ?_, fun h1 => ?_⟩
  · simp [h1]
  · simp [h1, h2]
  · rw [h1]
    simp

theorem verifyCosmosAppIsOpen_cases_witness :
    defaultLedger.verifyCosmosAppIsOpen
        { versionResp := ⟨1, 0, 0, false, none, none⟩
          appInfoResp := ⟨"dashBOARD", none, none⟩
          publicKeyResp := fun _ => ⟨[], none, none⟩
          signResp := fun _ _ => ⟨[], none, none⟩
          showResp := fun _ _ => ⟨"", [], none, none⟩ } =
      ([Request.appInfo],
       Except.error "Please open the Persistence Ledger app on your Ledger device.") ∧
    defaultLedger.verifyCosmosAppIsOpen (mkOkDevice (1, 0, 0) "SomeOtherApp") =
      ([Request.appInfo],
       Except.error ("Please close SomeOtherApp" ++
         " and open the Persistence Ledger app on your Ledger device.")) ∧
    defaultLedger.verifyCosmosAppIsOpen (mkOkDevice (1, 0, 0) "PERSISTENCE") =
      ([Request.appInfo], Except.ok ()) :=
  ⟨(verifyCosmosAppIsOpen_cases defaultLedger _ (by rfl)).1 (by rfl),
   (verifyCosmosAppIsOpen_cases defaultLedger
      (mkOkDevice (1, 0, 0) "SomeOtherApp") (by rfl)).2.1 (by decide) (by decide),
   (verifyCosmosAppIsOpen_cases defaultLedger
      (mkOkDevice (1, 0, 0) "PERSISTENCE") (by rfl)).2.2 (by rfl)⟩

/-- C7: a response whose error text is exactly "Transaction rejected" (and
whose locked flag is not set) fails with precisely the caller-supplied
rejection message; `sign` supplies its signing-specific message, so a
rejected signing request fails with exactly that message. -/
theorem rejection_message_propagation :
    (∀ (rej : String) (dl : Option Bool), dl.getD false = false →
      handleLedgerErrors (some "Transaction rejected") dl rej = Except.error rej) ∧
    (∀ (l : LaunchpadLedger) (d : Device) (msg : String) (p : HdPath)
        (gt : List Request),
      l.verifyDeviceIsReady d = (gt, Except.ok ()) →
      (d.signResp (unharden p) msg).error_message = some "Transaction rejected" →
      (d.signResp (unharden p) msg).device_locked.getD false = false →
      l.sign msg (some p) d =
        (gt ++ [Request.signBytes (unharden p) msg],
         Except.error signRejectionMessage)) := by
  have base : ∀ (rej : String) (dl : Option Bool), dl.getD false = false →
      handleLedgerErrors (some "Transaction rejected") dl rej = Except.error rej := by
    intro rej dl hdl
    simp [handleLedgerErrors, hdl]
  refine ⟨base, fun l d msg p gt hgate herr hdl => ?_⟩
  rw [sign_some_run, hgate]
  unfold signStep
  rw [herr, base signRejectionMessage _ hdl]

theorem rejection_message_propagation_witness :
    handleLedgerErrors (some "Transaction rejected") none "my custom message" =
        Except.error "my custom message" ∧
    defaultLedger.sign "doc" (some persistenceHdPath) mkRejectingDevice =
      ([Request.appInfo, Request.getVersion, Request.appInfo,
        Request.signBytes [44, 750, 0, 0, 0] "doc"],
       Except.error signRejectionMessage) :=
  ⟨rejection_message_propagation.1 "my custom message" none rfl,
   rejection_message_propagation.2 defaultLedger mkRejectingDevice "doc"
     persistenceHdPath [Request.appInfo, Request.getVersion, Request.appInfo]
     (by rfl) (by rfl) (by rfl)⟩

/-- C2: for each data-producing operation, the compatibility gate is run
first and must pass before the data request is sent: the gate itself sends
no data-producing request; if it fails, the operation fails with the gate
failure having sent exactly the gate requests and nothing else; if it
passes, the single data request follows the gate requests.  The gate is
re-run by every call (two sequential calls issue its requests twice);
nothing verified is cached. -/
theorem gate_before_data_requests (l : LaunchpadLedger) (d : Device) (p : HdPath)
    (msg : String) (gt : List Request) (gr : Except String Unit)
    (h : l.verifyDeviceIsReady d = (gt, gr)) :
    (∀ r ∈ gt, r.isDataRequest = false) ∧
    (∀ e, gr = Except.error e →
      l.getPubkey (some p) d = (gt, Except.error e) ∧
      l.sign msg (some p) d = (gt, Except.error e) ∧
      l.verifyAddress p d = (gt, Except.error e)) ∧
    (gr = Except.ok () →
      l.getPubkey (some p) d =
        (gt ++ [Request.publicKey (unharden p)], pubkeyStep d (unharden p)) ∧
      l.sign msg (some p) d =
        (gt ++ [Request.signBytes (unharden p) msg],
         signStep d (unharden p) msg) ∧
      l.verifyAddress p d =
        (gt ++ [Request.showAddressAndPubKey (unharden p) "persistence"],
         showStep d (unharden p)) ∧
      (∀ pk, pubkeyStep d (unharden p) = Except.ok pk →
        (l.getPubkey (some p) >>= fun _ => l.getPubkey (some p)) d =
          ((gt ++ [Request.publicKey (unharden p)]) ++
            (gt ++ [Request.publicKey (unharden p)]), Except.ok pk))) := by
  refine ⟨?_, fun e he => ?_, fun hok => ?_⟩
  · have := gate_trace_no_data l d
    rw [h] at this
    exact this
  · subst he
    rw [getPubkey_some_run, sign_some_run, verifyAddress_run, h]
    exact ⟨rfl, rfl, rfl⟩
  · subst hok
    rw [getPubkey_some_run, sign_some_run, verifyAddress_run, h]
    refine ⟨rfl, rfl, rfl, fun pk hpk => ?_⟩
    rw [run_bind, getPubkey_some_run, h]
    dsimp only
    rw [hpk]

theorem gate_before_data_requests_witness :
    defaultLedger.getPubkey (some persistenceHdPath) (mkOkDevice (1, 0, 0) "Persistence") =
      ([Request.appInfo, Request.getVersion, Request.appInfo,
        Request.publicKey [44, 750, 0, 0, 0]], Except.ok [2, 7, 1]) ∧
    (defaultLedger.getPubkey (some persistenceHdPath) >>= fun _ =>
        defaultLedger.getPubkey (some persistenceHdPath))
      (mkOkDevice (1, 0, 0) "Persistence") =
      ([Request.appInfo, Request.getVersion, Request.appInfo,
        Request.publicKey [44, 750, 0, 0, 0],
        Request.appInfo, Request.getVersion, Request.appInfo,
        Request.publicKey [44, 750, 0, 0, 0]], Except.ok [2, 7, 1]) :=
  have h := gate_before_data_requests defaultLedger (mkOkDevice (1, 0, 0) "Persistence")
    persistenceHdPath "m" [Request.appInfo, Request.getVersion, Request.appInfo]
    (Except.ok ()) (by rfl)
  ⟨(h.2.2 rfl).1, (h.2.2 rfl).2.2.2 [2, 7, 1] (by rfl)⟩

theorem getPubkeysStep_foldl (l : LaunchpadLedger) (d : Device) :
    ∀ (ps : List HdPath) (acc : LedgerM (List (List Nat))),
    (ps.foldl l.getPubkeysStep acc) d =
      match acc d with
      | (t, Except.error e) => (t, Except.error e)
      | (t, Except.ok pks) =>
        match pubkeysRun l d ps with
        | (t2, Except.error e) => (t ++ t2, Except.error e)
        | (t2, Except.ok pks2) => (t ++ t2, Except.ok (pks ++ pks2)) := by
  intro ps
  induction ps with
  | nil =>
    intro acc
    cases hacc : acc d with
    | mk t r =>
      cases r with
      | error e => simp [pubkeysRun, hacc]
      | ok pks => simp [pubkeysRun, hacc]
  | cons p ps ih =>
    intro acc
    rw [List.foldl_cons, ih]
    have hstep : (l.getPubkeysStep acc p) d =
        match acc d with
        | (t, Except.error e) => (t, Except.error e)
        | (t, Except.ok pks) =>
          match l.getPubkey (some p) d with
          | (t2, Except.error e) => (t ++ t2, Except.error e)
          | (t2, Except.ok pk) => (t ++ t2, Except.ok (pks ++ [pk])) := by
      unfold LaunchpadLedger.getPubkeysStep
      simp only [run_bind]
      cases hacc : acc d with
      | mk t r =>
        cases r with
        | error e => simp
        | ok pks =>
          cases hg : l.getPubkey (some p) d with
          | mk t2 r2 =>
            cases r2 with
            | error e => simp
            | ok pk => simp [run_pure]
    rw [hstep]
    cases hacc : acc d with
    | mk t r =>
      cases r with
      | error e => simp [pubkeysRun]
      | ok pks =>
        dsimp only
        cases hg : l.getPubkey (some p) d with
        | mk t2 r2 =>
          cases r2 with
          | error e => simp [pubkeysRun, hg]
          | ok pk =>
            dsimp only
            cases hrest : pubkeysRun l d ps with
            | mk t3 r3 =>
              cases r3 with
              | error e => simp [pubkeysRun, hg, hrest]
              | ok pks2 => simp [pubkeysRun, hg, hrest]

theorem getPubkeys_run (l : LaunchpadLedger) (d : Device) :
    l.getPubkeys d = pubkeysRun l d l.hdPaths := by
  unfold LaunchpadLedger.getPubkeys
  rw [getPubkeysStep_foldl]
  dsimp only [LedgerM.pureM]
  cases hrest : pubkeysRun l d l.hdPaths with
  | mk t3 r3 =>
    cases r3 with
    | error e => simp
    | ok pks2 => simp

/-- The gate sends no public-key request. -/
theorem gate_trace_no_pk (l : LaunchpadLedger) (d : Device) :
    ∀ r ∈ (l.verifyDeviceIsReady d).1, r.isPublicKey = false := by
  intro r hr
  rcases gate_trace_cases l d with h | h | h <;> rw [h] at hr <;> simp at hr <;>
    rcases hr with rfl | rfl | rfl <;> rfl

/-- A successful `getPubkey` call sends exactly one public-key request, for
the unhardened form of its path, and returns the device payload for it. -/
theorem getPubkey_ok_char (l : LaunchpadLedger) (d : Device) (p : HdPath)
    (t : List Request) (pk : List Nat)
    (h : l.getPubkey (some p) d = (t, Except.ok pk)) :
    t.filter Request.isPublicKey = [Request.publicKey (unharden p)] ∧
    pk = (d.publicKeyResp (unharden p)).compressed_pk := by
  rw [getPubkey_some_run] at h
  cases hg : l.verifyDeviceIsReady d with
  | mk gt gr =>
    rw [hg] at h
    cases gr with
    | error e => cases h
    | ok u =>
      cases u
      dsimp only at h
      have ht : t = gt ++ [Request.publicKey (unharden p)] := (Prod.mk.injEq _ _ _ _ ▸ h).1.symm
      have hr : pubkeyStep d (unharden p) = Except.ok pk := (Prod.mk.injEq _ _ _ _ ▸ h).2
      have hgt : gt.filter Request.isPublicKey = [] := by
        rw [List.filter_eq_nil_iff]
        intro r hr2
        have := gate_trace_no_pk l d r
        rw [hg] at this
        simp [this hr2]
      constructor
      · rw [ht, List.filter_append, hgt]
        rfl
      · unfold pubkeyStep at hr
        cases hpe : handleLedgerErrors (d.publicKeyResp (unharden p)).error_message
            (d.publicKeyResp (unharden p)).device_locked defaultRejectionMessage with
        | error e => rw [hpe] at hr; cases hr
        | ok u2 =>
          rw [hpe] at hr
          cases u2
          cases hr
          rfl

/-- A failed `getPubkey` call sends either no public-key request (the gate
stopped it) or exactly the one request for its path. -/
theorem getPubkey_err_char (l : LaunchpadLedger) (d : Device) (p : HdPath)
    (t : List Request) (e : String)
    (h : l.getPubkey (some p) d = (t, Except.error e)) :
    t.filter Request.isPublicKey = [] ∨
    t.filter Request.isPublicKey = [Request.publicKey (unharden p)] := by
  rw [getPubkey_some_run] at h
  cases hg : l.verifyDeviceIsReady d with
  | mk gt gr =>
    rw [hg] at h
    have hgt : gt.filter Request.isPublicKey = [] := by
      rw [List.filter_eq_nil_iff]
      intro r hr2
      have := gate_trace_no_pk l d r
      rw [hg] at this
      simp [this hr2]
    cases gr with
    | error e2 =>
      left
      have ht : t = gt := (Prod.mk.injEq _ _ _ _ ▸ h).1.symm
      rw [ht, hgt]
    | ok u =>
      cases u
      right
      dsimp only at h
      have ht : t = gt ++ [Request.publicKey (unharden p)] := (Prod.mk.injEq _ _ _ _ ▸ h).1.symm
      rw [ht, List.filter_append, hgt]
      rfl

/-- On overall success, the loop sends exactly one key request per
configured path, in input order, and returns the device payloads in the
same order. -/
theorem pubkeysRun_ok (l : LaunchpadLedger) (d : Device) :
    ∀ (ps : List HdPath) (t : List Request) (pks : List (List Nat)),
    pubkeysRun l d ps = (t, Except.ok pks) →
    t.filter Request.isPublicKey = ps.map (fun p => Request.publicKey (unharden p)) ∧
    pks = ps.map (fun p => (d.publicKeyResp (unharden p)).compressed_pk) := by
  intro ps
  induction ps with
  | nil =>
    intro t pks h
    unfold pubkeysRun at h
    cases h
    exact ⟨rfl, rfl⟩
  | cons p ps ih =>
    intro t pks h
    unfold pubkeysRun at h
    cases hg : l.getPubkey (some p) d with
    | mk t1 r1 =>
      rw [hg] at h
      cases r1 with
      | error e => cases h
      | ok pk =>
        dsimp only at h
        cases hrest : pubkeysRun l d ps with
        | mk t2 r2 =>
          rw [hrest] at h
          cases r2 with
          | error e => cases h
          | ok pks2 =>
            cases h
            obtain ⟨hf, hp⟩ := getPubkey_ok_char l d p t1 pk hg
            obtain ⟨hf2, hp2⟩ := ih t2 pks2 hrest
            refine ⟨?_, ?_⟩
            · rw [List.filter_append, hf, hf2]
              rfl
            · rw [hp, hp2]
              rfl

/-- If every call for the paths before `p` succeeds and the call for `p`
fails with `e`, the loop over `pre ++ p :: post` fails with `e`, and the
key requests it sent are those for `pre` (if the failing call was stopped
by the gate) or for `pre ++ [p]` — never any for `post`. -/
theorem pubkeysRun_err (l : LaunchpadLedger) (d : Device) :
    ∀ (pre : List HdPath) (p : HdPath) (post : List HdPath) (e : String),
    (∀ q ∈ pre, ∃ pk, (l.getPubkey (some q) d).2 = Except.ok pk) →
    (l.getPubkey (some p) d).2 = Except.error e →
    (pubkeysRun l d (pre ++ p :: post)).2 = Except.error e ∧
    ((pubkeysRun l d (pre ++ p :: post)).1.filter Request.isPublicKey =
       pre.map (fun q => Request.publicKey (unharden q)) ∨
     (pubkeysRun l d (pre ++ p :: post)).1.filter Request.isPublicKey =
       (pre ++ [p]).map (fun q => Request.publicKey (unharden q))) := by
  intro pre
  induction pre with
  | nil =>
    intro p post e _ hfail
    simp only [List.nil_append]
    unfold pubkeysRun
    cases hg : l.getPubkey (some p) d with
    | mk t1 r1 =>
      rw [hg] at hfail
      dsimp only at hfail
      subst hfail
      refine ⟨rfl, ?_⟩
      simpa using getPubkey_err_char l d p t1 e hg
  | cons q pre ih =>
    intro p post e hpre hfail
    obtain ⟨pk, hq⟩ := hpre q (List.mem_cons_self q pre)
    cases hg : l.getPubkey (some q) d with
    | mk t1 r1 =>
      rw [hg] at hq
      dsimp only at hq
      subst hq
      have hpre2 : ∀ q2 ∈ pre, ∃ pk2, (l.getPubkey (some q2) d).2 = Except.ok pk2 :=
        fun q2 hq2 => hpre q2 (List.mem_cons_of_mem q hq2)
      obtain ⟨hres, hfil⟩ := ih p post e hpre2 hfail
      simp only [List.cons_append]
      unfold pubkeysRun
      rw [hg]
      dsimp only
      cases hrest : pubkeysRun l d (pre ++ p :: post) with
      | mk t2 r2 =>
        rw [hrest] at hres hfil
        dsimp only at hres hfil
        subst hres
        obtain ⟨hf1, _⟩ := getPubkey_ok_char l d q t1 pk hg
        refine ⟨rfl, ?_⟩
        dsimp only
        rw [List.filter_append, hf1]
        rcases hfil with h2 | h2 <;> rw [h2] <;> simp

/-- C4: `getPubkeys` walks the configured paths sequentially.  On success
it has sent exactly one key request per configured path, in input order,
and returns the device keys in that same order (so exactly N of them).  If
the call for some path fails while every earlier call succeeds, the whole
call fails with that error — no partly filled result list is returned — and key
requests were sent only for the earlier paths and (at most) the failing
one, never for later paths. -/
theorem getPubkeys_sequential_ordered (l : LaunchpadLedger) (d : Device) :
    (∀ (t : List Request) (pks : List (List Nat)),
      l.getPubkeys d = (t, Except.ok pks) →
      t.filter Request.isPublicKey =
        l.hdPaths.map (fun p => Request.publicKey (unharden p)) ∧
      pks = l.hdPaths.map (fun p => (d.publicKeyResp (unharden p)).compressed_pk)) ∧
    (∀ (pre : List HdPath) (p : HdPath) (post : List HdPath) (e : String),
      l.hdPaths = pre ++ p :: post →
      (∀ q ∈ pre, ∃ pk, (l.getPubkey (some q) d).2 = Except.ok pk) →
      (l.getPubkey (some p) d).2 = Except.error e →
      (l.getPubkeys d).2 = Except.error e ∧
      ((l.getPubkeys d).1.filter Request.isPublicKey =
         pre.map (fun q => Request.publicKey (unharden q)) ∨
       (l.getPubkeys d).1.filter Request.isPublicKey =
         (pre ++ [p]).map (fun q => Request.publicKey (unharden q)))) := by
  constructor
  · intro t pks h
    rw [getPubkeys_run] at h
    exact pubkeysRun_ok l d l.hdPaths t pks h
  · intro pre p post e hsplit hpre hfail
    rw [getPubkeys_run, hsplit]
    exact pubkeysRun_err l d pre p post e hpre hfail

theorem getPubkeys_sequential_ordered_witness :
    ((threePathLedger.getPubkeys (mkOkDevice (1, 0, 0) "Persistence")).1.filter
        Request.isPublicKey =
      [Request.publicKey [44, 750, 0, 0, 0], Request.publicKey [44, 750, 1, 0, 0],
       Request.publicKey [44, 750, 2, 0, 0]] ∧
     (threePathLedger.getPubkeys (mkOkDevice (1, 0, 0) "Persistence")).2 =
       Except.ok [[2, 7, 1], [2, 7, 1], [2, 7, 1]]) ∧
    ((threePathLedger.getPubkeys mkFailSecondDevice).2 =
       Except.error "Connection timed out. Please try again." ∧
     (threePathLedger.getPubkeys mkFailSecondDevice).1.filter Request.isPublicKey =
       [Request.publicKey [44, 750, 0, 0, 0], Request.publicKey [44, 750, 1, 0, 0]]) := by
  constructor
  · have h := (getPubkeys_sequential_ordered threePathLedger
        (mkOkDevice (1, 0, 0) "Persistence")).1
        (threePathLedger.getPubkeys (mkOkDevice (1, 0, 0) "Persistence")).1
        [[2, 7, 1], [2, 7, 1], [2, 7, 1]] (by rfl)
    exact ⟨h.1, by rfl⟩
  · have h := (getPubkeys_sequential_ordered threePathLedger mkFailSecondDevice).2
        [makeHdPath 0 0 750] (makeHdPath 1 0 750) [makeHdPath 2 0 750]
        "Connection timed out. Please try again." (by rfl)
        (by
          rintro q hq
          simp only [List.mem_singleton] at hq
          subst hq
          exact ⟨[0], by rfl⟩)
        (by rfl)
    exact ⟨h.1, by rfl⟩

/-- C8: unhardening round-trips the hardening encoding.  For every path,
each segment maps to its stored value, minus `2 ^ 31` when hardened; a path
built from three hardened segments followed by two non-hardened ones (below
the hardening offset) unhardens to the raw numbers; in particular the
default path `m/44 h/750 h/0 h/0/0` unhardens to `[44, 750, 0, 0, 0]`. -/
theorem unharden_roundtrip (a b c i j : Nat) (hi : i < 2 ^ 31) (hj : j < 2 ^ 31) :
    (∀ path : HdPath, unharden path =
      path.map (fun n => if n.isHardened then n.value - 2 ^ 31 else n.value)) ∧
    unharden [Slip10RawIndex.hardened a, Slip10RawIndex.hardened b,
        Slip10RawIndex.hardened c, Slip10RawIndex.normal i,
        Slip10RawIndex.normal j] = [a, b, c, i, j] ∧
    unharden (makeHdPath 0 0 750) = [44, 750, 0, 0, 0] := by
  refine ⟨fun path => rfl, ?_, by decide⟩
  simp only [unharden, List.map_cons, List.map_nil, Slip10RawIndex.hardened,
    Slip10RawIndex.normal, Slip10RawIndex.isHardened, Slip10RawIndex.toNumber,
    decide_eq_true_eq]
  rw [if_pos (by omega), if_pos (by omega), if_pos (by omega),
    if_neg (by omega), if_neg (by omega)]
  simp

theorem unharden_roundtrip_witness :
    0 < 2 ^ 31 ∧
    unharden [Slip10RawIndex.hardened 44, Slip10RawIndex.hardened 750,
        Slip10RawIndex.hardened 0, Slip10RawIndex.normal 0,
        Slip10RawIndex.normal 0] = [44, 750, 0, 0, 0] ∧
    unharden (makeHdPath 0 0 750) = [44, 750, 0, 0, 0] :=
  ⟨by decide,
   (unharden_roundtrip 44 750 0 0 0 (by decide) (by decide)).2.1,
   (unharden_roundtrip 44 750 0 0 0 (by decide) (by decide)).2.2⟩

/-- C9: `getAddress` with a supplied key performs zero device requests and
returns the local bech32 encoding; with no key it performs exactly the one
`getPubkey` exchange (over the default first configured path, so exactly
one key request after the gate) and encodes its result. -/
theorem getCosmosAddress_roundtrips (l : LaunchpadLedger) (d : Device)
    (pk : List Nat) :
    (l.getCosmosAddress (some pk) d = ([], Except.ok (getBech32FromPK l.hrp pk))) ∧
    (l.getCosmosAddress none d =
      ((l.getPubkey none d).1,
       Except.map (getBech32FromPK l.hrp) (l.getPubkey none d).2)) ∧
    (∀ (p : HdPath) (rest : List HdPath) (gt : List Request),
      l.hdPaths = p :: rest →
      l.verifyDeviceIsReady d = (gt, Except.ok ()) →
      (l.getCosmosAddress none d).1 = gt ++ [Request.publicKey (unharden p)]) := by
  refine ⟨?_, ?_, ?_⟩
  · rfl
  · unfold LaunchpadLedger.getCosmosAddress
    simp only [run_bind]
    cases hg : l.getPubkey none d with
    | mk t r =>
      cases r with
      | error e => simp [Except.map]
      | ok k => simp [Except.map, run_pure]
  · intro p rest gt hp hgate
    unfold LaunchpadLedger.getCosmosAddress
    simp only [run_bind]
    rw [getPubkey_none_run l d p rest hp, getPubkey_some_run, hgate]
    dsimp only
    cases hs : pubkeyStep d (unharden p) with
    | error e => simp
    | ok k => simp [run_pure]

theorem getCosmosAddress_roundtrips_witness :
    defaultLedger.getCosmosAddress (some [2, 7, 1]) (mkOkDevice (1, 0, 0) "Persistence") =
      ([], Except.ok (getBech32FromPK defaultLedger.hrp [2, 7, 1])) ∧
    (defaultLedger.getCosmosAddress none (mkOkDevice (1, 0, 0) "Persistence")).1 =
      [Request.appInfo, Request.getVersion, Request.appInfo] ++
        [Request.publicKey [44, 750, 0, 0, 0]] :=
  ⟨(getCosmosAddress_roundtrips defaultLedger (mkOkDevice (1, 0, 0) "Persistence")
      [2, 7, 1]).1,
   (getCosmosAddress_roundtrips defaultLedger (mkOkDevice (1, 0, 0) "Persistence")
      [2, 7, 1]).2.2 persistenceHdPath []
      [Request.appInfo, Request.getVersion, Request.appInfo] (by rfl) (by rfl)⟩

/-- C10: a session constructed with an explicitly empty derivation-path
list keeps the empty list (emptiness is not rejected at construction), and
its `getPubkeys` returns the empty sequence having sent no request at all —
neither the compatibility gate nor any key request. -/
theorem getPubkeys_empty_paths (d : Device) (opts : LaunchpadLedgerOptions)
    (h : opts.hdPaths = some []) :
    (LaunchpadLedger.construct opts).hdPaths = [] ∧
    (LaunchpadLedger.construct opts).getPubkeys d = ([], Except.ok []) := by
  have hempty : (LaunchpadLedger.construct opts).hdPaths = [] := by
    unfold LaunchpadLedger.construct
    rw [h]
    rfl
  refine ⟨hempty, ?_⟩
  unfold LaunchpadLedger.getPubkeys
  rw [hempty]
  rfl

theorem getPubkeys_empty_paths_witness :
    (LaunchpadLedger.construct ⟨some [], none, none⟩).hdPaths = [] ∧
    (LaunchpadLedger.construct ⟨some [], none, none⟩).getPubkeys
        (mkOkDevice (1, 0, 0) "Persistence") = ([], Except.ok []) :=
  getPubkeys_empty_paths (mkOkDevice (1, 0, 0) "Persistence")
    ⟨some [], none, none⟩ rfl

theorem handleLedgerErrors_table_contract_witness :
    handleLedgerErrors (some "Transaction rejected") (some true) "m" =
        Except.error screensaverMsg ∧
    handleLedgerErrors (some "Boom") none "m" =
        Except.error ("Ledger Native Error: " ++ "Boom") ∧
    handleLedgerErrors none none "m" = Except.ok () :=
  have h1 := handleLedgerErrors_table_contract (some "Transaction rejected")
    (some true) "m"
  have h2 := handleLedgerErrors_table_contract (some "Boom") none "m"
  have h3 := handleLedgerErrors_table_contract none none "m"
  ⟨h1.2.1 rfl,
   (h2.2.2 rfl).2.2.2.2.2.2 "Boom" rfl (by decide),
   h3.1.2 ⟨rfl, Or.inl rfl⟩⟩


end LedgerAmino
